import Mathlib

/-!
Verification development for the phase2/phase3 compiler front end
(lexer.c, parser.c, semantic.c).  The C code is shallowly embedded:
the lexer's global mutable `current_line` becomes an explicitly
threaded value, the parser's global `current_token`/`position` become
a state record, heap mutation of AST nodes becomes functional record
construction, and `exit(1)` on a fatal parse error becomes `Except`.
-/

namespace CFront

/-- Token kinds consumed by the parser.  tokens.h is not part of the
sources given; the constructor set is exactly the set of TOKEN_ values
referenced by lexer.c, parser.c and semantic.c. -/
inductive TokenType where
  | TOKEN_EOF
  | TOKEN_NUMBER
  | TOKEN_OPERATOR
  | TOKEN_IDENTIFIER
  | TOKEN_EQUALS
  | TOKEN_SEMICOLON
  | TOKEN_LPAREN
  | TOKEN_RPAREN
  | TOKEN_LBRACE
  | TOKEN_RBRACE
  | TOKEN_IF
  | TOKEN_WHILE
  | TOKEN_REPEAT
  | TOKEN_UNTIL
  | TOKEN_INT
  | TOKEN_PRINT
  | TOKEN_ERROR
  deriving DecidableEq, Repr

/-- Lexical error category attached to a token (lexer.c `ErrorType`).
Only ERROR_INVALID_CHAR is ever raised by get_next_token. -/
inductive ErrorType where
  | ERROR_NONE
  | ERROR_INVALID_CHAR
  | ERROR_INVALID_NUMBER
  | ERROR_CONSECUTIVE_OPERATORS
  | ERROR_INVALID_IDENTIFIER
  | ERROR_UNEXPECTED_TOKEN
  deriving DecidableEq, Repr

/-- One token (lexer.c `Token`): kind, lexeme text, source line captured
from the global line counter at the moment get_next_token was entered,
and a lexical-error field. -/
structure Token where
  type : TokenType
  lexeme : String
  line : Nat
  error : ErrorType
  deriving DecidableEq, Repr

/-- Capacity of the fixed-size lexeme buffer.  Modelled from the spec:
tokens.h (which fixes `sizeof(token.lexeme)`) is not among the sources;
the spec only says the buffer is fixed-size, so we pick 100, matching
the only buffer size visible in the sources (Symbol.name[100]).  The
number and identifier scanning loops stop after capacity - 1 characters. -/
def lexemeCap : Nat := 100

/-- Continuation character of an identifier: `isalnum(c) || c == '_'`
(lexer.c line 143). -/
def identChar (c : Char) : Bool := c.isAlphanum || c = '_'

/-- Keyword table of lexer.c (`keywords` / `is_keyword`): returns the
keyword's token type, or none when the word is not a keyword. -/
def keywordType (w : String) : Option TokenType :=
  if w = "if" then some .TOKEN_IF
  else if w = "while" then some .TOKEN_WHILE
  else if w = "repeat" then some .TOKEN_REPEAT
  else if w = "until" then some .TOKEN_UNTIL
  else if w = "int" then some .TOKEN_INT
  else if w = "print" then some .TOKEN_PRINT
  else none

/-- The whitespace-and-comment skipping loop at the top of
get_next_token (lexer.c lines 89-112), written as one character-at-a-
time loop with a mode flag: mode false is the outer loop (skip spaces,
tabs and newlines; a slash-star switches to comment mode), mode true is
the inner block-comment loop of lines 100-108 (consume everything up to
a closing star-slash, then return to the outer loop; an unterminated
comment consumes the rest of the input).  Returns (characters consumed,
newlines seen); each newline seen incremented the global line counter
in the C code. -/
def skipLoop : Bool → List Char → Nat × Nat
  | false, ' ' :: rest =>
      let r := skipLoop false rest
      (r.1 + 1, r.2)
  | false, '\t' :: rest =>
      let r := skipLoop false rest
      (r.1 + 1, r.2)
  | false, '\n' :: rest =>
      let r := skipLoop false rest
      (r.1 + 1, r.2 + 1)
  | false, '/' :: '*' :: rest =>
      let r := skipLoop true rest
      (r.1 + 2, r.2)
  | false, _ => (0, 0)
  | true, '*' :: '/' :: rest =>
      let r := skipLoop false rest
      (r.1 + 2, r.2)
  | true, '\n' :: rest =>
      let r := skipLoop true rest
      (r.1 + 1, r.2 + 1)
  | true, _ :: rest =>
      let r := skipLoop true rest
      (r.1 + 1, r.2)
  | true, [] => (0, 0)

/-- Whitespace-and-comment skipping, starting in the outer mode. -/
def skipWsComments (s : List Char) : Nat × Nat := skipLoop false s

/-- Scan of one token starting at a non-NUL character `c` followed by
`rest` (lexer.c lines 121-205): token kind, lexeme, lexical error and
number of characters consumed. -/
structure Scanned where
  type : TokenType
  lexeme : String
  err : ErrorType
  consumed : Nat
  deriving DecidableEq, Repr

/-- Token scan after whitespace/comments (lexer.c lines 121-205).
Numbers: greedy digits, at most lexemeCap - 1 of them.  Identifiers:
a letter or underscore followed greedily by alphanumerics/underscores,
keyword-checked.  Then the operator/delimiter switch; an unrecognized
character keeps the initial TOKEN_ERROR type with ERROR_INVALID_CHAR. -/
def scanTok (c : Char) (rest : List Char) : Scanned :=
  if c.isDigit then
    let ds := ((c :: rest).takeWhile Char.isDigit).take (lexemeCap - 1)
    ⟨.TOKEN_NUMBER, String.mk ds, .ERROR_NONE, ds.length⟩
  else if c.isAlpha ∨ c = '_' then
    let ws := ((c :: rest).takeWhile identChar).take (lexemeCap - 1)
    let w := String.mk ws
    ⟨(keywordType w).getD .TOKEN_IDENTIFIER, w, .ERROR_NONE, ws.length⟩
  else if c = '+' ∨ c = '-' ∨ c = '*' ∨ c = '/' then
    ⟨.TOKEN_OPERATOR, String.mk [c], .ERROR_NONE, 1⟩
  else if c = '>' then
    if rest.head? = some '=' then ⟨.TOKEN_OPERATOR, ">=", .ERROR_NONE, 2⟩
    else ⟨.TOKEN_OPERATOR, String.mk [c], .ERROR_NONE, 1⟩
  else if c = '<' then
    if rest.head? = some '=' then ⟨.TOKEN_OPERATOR, "<=", .ERROR_NONE, 2⟩
    else ⟨.TOKEN_OPERATOR, String.mk [c], .ERROR_NONE, 1⟩
  else if c = '=' then
    if rest.head? = some '=' then ⟨.TOKEN_OPERATOR, "==", .ERROR_NONE, 2⟩
    else ⟨.TOKEN_EQUALS, String.mk [c], .ERROR_NONE, 1⟩
  else if c = ';' then ⟨.TOKEN_SEMICOLON, String.mk [c], .ERROR_NONE, 1⟩
  else if c = '(' then ⟨.TOKEN_LPAREN, String.mk [c], .ERROR_NONE, 1⟩
  else if c = ')' then ⟨.TOKEN_RPAREN, String.mk [c], .ERROR_NONE, 1⟩
  else if c = '{' then ⟨.TOKEN_LBRACE, String.mk [c], .ERROR_NONE, 1⟩
  else if c = '}' then ⟨.TOKEN_RBRACE, String.mk [c], .ERROR_NONE, 1⟩
  else ⟨.TOKEN_ERROR, String.mk [c], .ERROR_INVALID_CHAR, 1⟩

/-- Result of one get_next_token call: the token, the advanced cursor,
and the new value of the (otherwise global) line counter. -/
structure LexResult where
  tok : Token
  pos : Nat
  line : Nat
  deriving DecidableEq, Repr

/-- get_next_token (lexer.c lines 83-206).  `line` is the value of the
global `current_line` at entry; the token's line field is captured at
entry, before any whitespace is skipped (C line 84).  At end of input
the global line counter is reset to 0 (C line 117), and the input is a
NUL-terminated buffer, modelled by reading past the list's end as NUL. -/
def get_next_token (input : List Char) (pos : Nat) (line : Nat) : LexResult :=
  let s0 := input.drop pos
  let sk := skipWsComments s0
  match s0.drop sk.1 with
  | [] => ⟨⟨.TOKEN_EOF, "EOF", line, .ERROR_NONE⟩, pos + sk.1, 0⟩
  | c :: rest =>
    let sc := scanTok c rest
    ⟨⟨sc.type, sc.lexeme, line, sc.err⟩, pos + sk.1 + sc.consumed, line + sk.2⟩

/-- AST node kinds (parser.h `ASTNodeType`). -/
inductive ASTNodeType where
  | AST_PROGRAM
  | AST_VARDECL
  | AST_ASSIGN
  | AST_PRINT
  | AST_NUMBER
  | AST_IDENTIFIER
  | AST_BINOP
  | AST_IF
  | AST_WHILE
  | AST_REPEAT
  | AST_BLOCK
  | AST_FUNCALL
  deriving DecidableEq, Repr

/-- AST node (parser.h `ASTNode`): a node kind, the associated token,
and child pointers, with NULL modelled as the `null` constructor.
Besides `left` and `right` there is a third child slot `elseBranch`.
Modelled from the spec: the parser.h shipped among the sources declares
only `left` and `right`, yet semantic.c line 195 dereferences
`node->else_branch`, so the ASTNode that semantic.c actually compiles
against must carry the field; the spec confirms an optional third child
used only by If nodes.  The phase2 parser never populates it (its
create_node initializes only left and right, and no production writes
an else branch), so every parsed tree has `null` in this slot. -/
inductive ASTNode where
  | null
  | node (ty : ASTNodeType) (tok : Token) (left right elseBranch : ASTNode)
  deriving DecidableEq, Repr

/-- Parse error categories (parser.h `ParseError`). -/
inductive ParseError where
  | PARSE_ERROR_NONE
  | PARSE_ERROR_UNEXPECTED_TOKEN
  | PARSE_ERROR_MISSING_SEMICOLON
  | PARSE_ERROR_MISSING_IDENTIFIER
  | PARSE_ERROR_MISSING_EQUALS
  | PARSE_ERROR_INVALID_EXPRESSION
  | PARSE_ERROR_MISSING_LPAREN
  | PARSE_ERROR_MISSING_RPAREN
  | PARSE_ERROR_MISSING_CONDITION
  | PARSE_ERROR_MISSING_BLOCK
  | PARSE_ERROR_INVALID_OPERATOR
  | PARSE_ERROR_FUNCTION_CALL
  deriving DecidableEq, Repr

/-- A fatal parser outcome: in parser.c every parse error is reported
and then the process exits (exit(1)); here the exits become values.
`parseFail e t` is parse_error(e, t) followed by exit(1); `primaryFail`
is the "Expected primary expression" exit in parse_primary (line 153);
`statementFail` is the "Unexpected token" exit in parse_statement
(line 378); `outOfFuel` is the recursion-fuel bound of the embedding,
never a behavior of the C code. -/
inductive Fatal where
  | parseFail (e : ParseError) (t : Token)
  | primaryFail (line : Nat)
  | statementFail (lexeme : String)
  | outOfFuel
  deriving DecidableEq, Repr

/-- Parser state: the globals of parser.c (`source`, `position`,
`current_token`) together with the lexer's global `current_line`. -/
structure PState where
  src : List Char
  pos : Nat
  line : Nat
  cur : Token
  deriving DecidableEq, Repr

/-- advance (parser.c lines 86-88): fetch the next token. -/
def advance (st : PState) : PState :=
  let r := get_next_token st.src st.pos st.line
  ⟨st.src, r.pos, r.line, r.tok⟩

/-- expect (parser.c lines 108-115): consume a token of the given type
or exit with PARSE_ERROR_UNEXPECTED_TOKEN. -/
def expect (ty : TokenType) (st : PState) : Except Fatal PState :=
  if st.cur.type = ty then .ok (advance st)
  else .error (.parseFail .PARSE_ERROR_UNEXPECTED_TOKEN st.cur)

/-- First character of a C string: lexeme[0], which is NUL for the
empty string. -/
def firstChar (s : String) : Char := s.toList.headD (Char.ofNat 0)

/-- Overwrite a node's right-child pointer (the assignment
`current->right = stmt` in parse_block, parser.c line 335). -/
def ASTNode.setRight : ASTNode → ASTNode → ASTNode
  | .null, _ => .null
  | .node ty tok l _ e, r => .node ty tok l r e

/-- Final heap shape of the statement chain built by the parse_block
loop (parser.c lines 328-338): the first statement is the block's left
child and each further statement is stored into the PREVIOUS
statement's right-child slot (`current->right = stmt`), overwriting
whatever that slot held; the last statement keeps its own right child. -/
def chainStmts : List ASTNode → ASTNode
  | [] => .null
  | [s] => s
  | s :: rest => s.setRight (chainStmts rest)

/-- parse_declaration (parser.c lines 235-250): `int x ;`.  The node's
token is overwritten with the identifier token (line 242); the node has
no children. -/
def parse_declaration (st : PState) : Except Fatal (ASTNode × PState) :=
  let st1 := advance st
  if st1.cur.type ≠ .TOKEN_IDENTIFIER then
    .error (.parseFail .PARSE_ERROR_MISSING_IDENTIFIER st1.cur)
  else
    let tok := st1.cur
    let st2 := advance st1
    if st2.cur.type ≠ .TOKEN_SEMICOLON then
      .error (.parseFail .PARSE_ERROR_MISSING_SEMICOLON st2.cur)
    else .ok (.node .AST_VARDECL tok .null .null .null, advance st2)

mutual

/-- parse_primary (parser.c lines 129-156): number, identifier or
factorial call (disambiguated by a one-token lookahead that saves and
restores `position` but NOT the global line counter, lines 137-139), or
parenthesized expression; anything else is the fatal "Expected primary
expression" exit. -/
def parse_primary : Nat → PState → Except Fatal (ASTNode × PState)
  | 0, _ => .error .outOfFuel
  | fuel + 1, st =>
    if st.cur.type = .TOKEN_NUMBER then
      .ok (.node .AST_NUMBER st.cur .null .null .null, advance st)
    else if st.cur.type = .TOKEN_IDENTIFIER then
      let peek := get_next_token st.src st.pos st.line
      let st1 : PState := ⟨st.src, st.pos, peek.line, st.cur⟩
      if peek.tok.type = .TOKEN_LPAREN ∧ st1.cur.lexeme = "factorial" then
        parse_factorial fuel st1
      else
        .ok (.node .AST_IDENTIFIER st1.cur .null .null .null, advance st1)
    else if st.cur.type = .TOKEN_LPAREN then do
      let (e, st1) ← parse_expression fuel (advance st)
      let st2 ← expect .TOKEN_RPAREN st1
      .ok (e, st2)
    else .error (.primaryFail st.cur.line)

/-- parse_factorial (parser.c lines 348-356): factorial(expression),
argument in the left child. -/
def parse_factorial : Nat → PState → Except Fatal (ASTNode × PState)
  | 0, _ => .error .outOfFuel
  | fuel + 1, st => do
    let tok := st.cur
    let st1 ← expect .TOKEN_LPAREN (advance st)
    let (arg, st2) ← parse_expression fuel st1
    let st3 ← expect .TOKEN_RPAREN st2
    .ok (.node .AST_FUNCALL tok arg .null .null, st3)

/-- parse_factor (parser.c lines 159-172): parse_primary, then a
left-associative loop on operators whose lexeme starts with star or
slash. -/
def parse_factor : Nat → PState → Except Fatal (ASTNode × PState)
  | 0, _ => .error .outOfFuel
  | fuel + 1, st => do
    let (n, st1) ← parse_primary fuel st
    parse_factor_loop fuel n st1

/-- The while-loop of parse_factor. -/
def parse_factor_loop : Nat → ASTNode → PState → Except Fatal (ASTNode × PState)
  | 0, _, _ => .error .outOfFuel
  | fuel + 1, n, st =>
    if st.cur.type = .TOKEN_OPERATOR ∧
        (firstChar st.cur.lexeme = '*' ∨ firstChar st.cur.lexeme = '/') then do
      let op := st.cur
      let (r, st1) ← parse_primary fuel (advance st)
      parse_factor_loop fuel (.node .AST_BINOP op n r .null) st1
    else .ok (n, st)

/-- parse_term (parser.c lines 175-188): parse_factor, then a
left-associative loop on operators whose lexeme starts with plus or
minus. -/
def parse_term : Nat → PState → Except Fatal (ASTNode × PState)
  | 0, _ => .error .outOfFuel
  | fuel + 1, st => do
    let (n, st1) ← parse_factor fuel st
    parse_term_loop fuel n st1

/-- The while-loop of parse_term. -/
def parse_term_loop : Nat → ASTNode → PState → Except Fatal (ASTNode × PState)
  | 0, _, _ => .error .outOfFuel
  | fuel + 1, n, st =>
    if st.cur.type = .TOKEN_OPERATOR ∧
        (firstChar st.cur.lexeme = '+' ∨ firstChar st.cur.lexeme = '-') then do
      let op := st.cur
      let (r, st1) ← parse_factor fuel (advance st)
      parse_term_loop fuel (.node .AST_BINOP op n r .null) st1
    else .ok (n, st)

/-- parse_comparison (parser.c lines 191-205): parse_term, then a
left-associative loop on the operators whose whole lexeme is a
less-than or greater-than sign (strcmp comparison). -/
def parse_comparison : Nat → PState → Except Fatal (ASTNode × PState)
  | 0, _ => .error .outOfFuel
  | fuel + 1, st => do
    let (n, st1) ← parse_term fuel st
    parse_comparison_loop fuel n st1

/-- The while-loop of parse_comparison. -/
def parse_comparison_loop : Nat → ASTNode → PState → Except Fatal (ASTNode × PState)
  | 0, _, _ => .error .outOfFuel
  | fuel + 1, n, st =>
    if st.cur.type = .TOKEN_OPERATOR ∧
        (st.cur.lexeme = "<" ∨ st.cur.lexeme = ">") then do
      let op := st.cur
      let (r, st1) ← parse_term fuel (advance st)
      parse_comparison_loop fuel (.node .AST_BINOP op n r .null) st1
    else .ok (n, st)

/-- parse_equality (parser.c lines 208-222): parse_comparison, then a
left-associative loop on the == and != operator lexemes. -/
def parse_equality : Nat → PState → Except Fatal (ASTNode × PState)
  | 0, _ => .error .outOfFuel
  | fuel + 1, st => do
    let (n, st1) ← parse_comparison fuel st
    parse_equality_loop fuel n st1

/-- The while-loop of parse_equality. -/
def parse_equality_loop : Nat → ASTNode → PState → Except Fatal (ASTNode × PState)
  | 0, _, _ => .error .outOfFuel
  | fuel + 1, n, st =>
    if st.cur.type = .TOKEN_OPERATOR ∧
        (st.cur.lexeme = "==" ∨ st.cur.lexeme = "!=") then do
      let op := st.cur
      let (r, st1) ← parse_comparison fuel (advance st)
      parse_equality_loop fuel (.node .AST_BINOP op n r .null) st1
    else .ok (n, st)

/-- parse_expression (parser.c lines 225-228). -/
def parse_expression : Nat → PState → Except Fatal (ASTNode × PState)
  | 0, _ => .error .outOfFuel
  | fuel + 1, st => parse_equality fuel st

/-- parse_assignment (parser.c lines 253-270): `x = expression ;`.
Both the assignment node's token and its left identifier child's token
are the left-hand identifier token. -/
def parse_assignment : Nat → PState → Except Fatal (ASTNode × PState)
  | 0, _ => .error .outOfFuel
  | fuel + 1, st =>
    let atok := st.cur
    let lhs : ASTNode := .node .AST_IDENTIFIER st.cur .null .null .null
    let st1 := advance st
    if st1.cur.type ≠ .TOKEN_EQUALS then
      .error (.parseFail .PARSE_ERROR_MISSING_EQUALS st1.cur)
    else do
      let (rhs, st2) ← parse_expression fuel (advance st1)
      if st2.cur.type ≠ .TOKEN_SEMICOLON then
        .error (.parseFail .PARSE_ERROR_MISSING_SEMICOLON st2.cur)
      else .ok (.node .AST_ASSIGN atok lhs rhs .null, advance st2)

/-- parse_if_statement (parser.c lines 273-281): condition in the left
child, then-branch in the right child; no else production exists. -/
def parse_if_statement : Nat → PState → Except Fatal (ASTNode × PState)
  | 0, _ => .error .outOfFuel
  | fuel + 1, st => do
    let tok := st.cur
    let st1 ← expect .TOKEN_LPAREN (advance st)
    let (cond, st2) ← parse_expression fuel st1
    let st3 ← expect .TOKEN_RPAREN st2
    let (body, st4) ← parse_statement fuel st3
    .ok (.node .AST_IF tok cond body .null, st4)

/-- parse_while_statement (parser.c lines 284-292). -/
def parse_while_statement : Nat → PState → Except Fatal (ASTNode × PState)
  | 0, _ => .error .outOfFuel
  | fuel + 1, st => do
    let tok := st.cur
    let st1 ← expect .TOKEN_LPAREN (advance st)
    let (cond, st2) ← parse_expression fuel st1
    let st3 ← expect .TOKEN_RPAREN st2
    let (body, st4) ← parse_statement fuel st3
    .ok (.node .AST_WHILE tok cond body .null, st4)

/-- parse_repeat_statement (parser.c lines 295-309): body in the left
child, condition in the right child. -/
def parse_repeat_statement : Nat → PState → Except Fatal (ASTNode × PState)
  | 0, _ => .error .outOfFuel
  | fuel + 1, st => do
    let tok := st.cur
    let (body, st1) ← parse_statement fuel (advance st)
    if st1.cur.type ≠ .TOKEN_UNTIL then
      .error (.parseFail .PARSE_ERROR_UNEXPECTED_TOKEN st1.cur)
    else do
      let st2 ← expect .TOKEN_LPAREN (advance st1)
      let (cond, st3) ← parse_expression fuel st2
      let st4 ← expect .TOKEN_RPAREN st3
      let st5 ← expect .TOKEN_SEMICOLON st4
      .ok (.node .AST_REPEAT tok body cond .null, st5)

/-- parse_print_statement (parser.c lines 312-322). -/
def parse_print_statement : Nat → PState → Except Fatal (ASTNode × PState)
  | 0, _ => .error .outOfFuel
  | fuel + 1, st => do
    let tok := st.cur
    let (e, st1) ← parse_expression fuel (advance st)
    if st1.cur.type ≠ .TOKEN_SEMICOLON then
      .error (.parseFail .PARSE_ERROR_MISSING_SEMICOLON st1.cur)
    else .ok (.node .AST_PRINT tok e .null .null, advance st1)

/-- The statement-collecting while-loop of parse_block (parser.c lines
329-338): statements until a right brace or EOF. -/
def parse_block_items : Nat → PState → Except Fatal (List ASTNode × PState)
  | 0, _ => .error .outOfFuel
  | fuel + 1, st =>
    if st.cur.type ≠ .TOKEN_RBRACE ∧ st.cur.type ≠ .TOKEN_EOF then do
      let (s, st1) ← parse_statement fuel st
      let (rest, st2) ← parse_block_items fuel st1
      .ok (s :: rest, st2)
    else .ok ([], st)

/-- parse_block (parser.c lines 325-345): consume a left brace, create
the block node (its token is the token after the brace), collect the
statements, require the right brace.  The statements are linked by
`current->right = stmt` through the previous statement node, which
chainStmts reproduces; the block node's own right child is never
assigned and stays NULL. -/
def parse_block : Nat → PState → Except Fatal (ASTNode × PState)
  | 0, _ => .error .outOfFuel
  | fuel + 1, st => do
    let st1 ← expect .TOKEN_LBRACE st
    let btok := st1.cur
    let (stmts, st2) ← parse_block_items fuel st1
    if st2.cur.type ≠ .TOKEN_RBRACE then
      .error (.parseFail .PARSE_ERROR_MISSING_BLOCK st2.cur)
    else do
      let st3 ← expect .TOKEN_RBRACE st2
      .ok (.node .AST_BLOCK btok (chainStmts stmts) .null .null, st3)

/-- parse_statement (parser.c lines 361-380): dispatch on the current
token's type; any other leading token is the fatal "Unexpected token"
exit. -/
def parse_statement : Nat → PState → Except Fatal (ASTNode × PState)
  | 0, _ => .error .outOfFuel
  | fuel + 1, st =>
    if st.cur.type = .TOKEN_INT then parse_declaration st
    else if st.cur.type = .TOKEN_IDENTIFIER then parse_assignment fuel st
    else if st.cur.type = .TOKEN_IF then parse_if_statement fuel st
    else if st.cur.type = .TOKEN_WHILE then parse_while_statement fuel st
    else if st.cur.type = .TOKEN_REPEAT then parse_repeat_statement fuel st
    else if st.cur.type = .TOKEN_PRINT then parse_print_statement fuel st
    else if st.cur.type = .TOKEN_LBRACE then parse_block fuel st
    else .error (.statementFail st.cur.lexeme)

/-- parse_program (parser.c lines 383-394): a right-leaning chain of
AST_PROGRAM nodes, one statement in each left child, the continuation
in each right child; each chain node's token is the token current when
that chain node was created. -/
def parse_program : Nat → PState → Except Fatal (ASTNode × PState)
  | 0, _ => .error .outOfFuel
  | fuel + 1, st =>
    let ptok := st.cur
    if st.cur.type = .TOKEN_EOF then
      .ok (.node .AST_PROGRAM ptok .null .null .null, st)
    else do
      let (s, st1) ← parse_statement fuel st
      if st1.cur.type = .TOKEN_EOF then
        .ok (.node .AST_PROGRAM ptok s .null .null, st1)
      else do
        let (rest, st2) ← parse_program fuel st1
        .ok (.node .AST_PROGRAM ptok s rest .null, st2)

end

/-- parser_init (parser.c lines 399-403): set the source, reset the
cursor, fetch the first token.  The lexer's global line counter starts
at 1 (lexer.c line 8); the pre-init current_token is never read. -/
def parser_init (input : List Char) : PState :=
  advance ⟨input, 0, 1, ⟨.TOKEN_ERROR, "", 1, .ERROR_NONE⟩⟩

/-- parse (parser.c lines 405-407) on a source string, with recursion
fuel for the embedding. -/
def parse (input : String) (fuel : Nat) : Except Fatal ASTNode :=
  (parse_program fuel (parser_init input.toList)).map Prod.fst

/-- Expression-level entry point: parser_init followed by
parse_expression, returning the expression tree. -/
def parseExpressionFrom (input : String) (fuel : Nat) : Except Fatal ASTNode :=
  (parse_expression fuel (parser_init input.toList)).map Prod.fst

/-- Semantic error categories (semantic.h `SemanticErrorType`). -/
inductive SemanticErrorType where
  | SEM_ERROR_NONE
  | SEM_ERROR_UNDECLARED_VARIABLE
  | SEM_ERROR_REDECLARED_VARIABLE
  | SEM_ERROR_TYPE_MISMATCH
  | SEM_ERROR_UNINITIALIZED_VARIABLE
  | SEM_ERROR_INVALID_OPERATION
  | SEM_ERROR_SEMANTIC_ERROR
  deriving DecidableEq, Repr

/-- One diagnostic as printed by semantic_error (semantic.c lines
124-145): category, variable name, line number. -/
structure Diag where
  err : SemanticErrorType
  name : String
  line : Nat
  deriving DecidableEq, Repr

/-- Capacity of Symbol.name (semantic.h: char name[100]). -/
def symNameCap : Nat := 100

/-- The strncpy-plus-forced-NUL of add_symbol (semantic.c lines 25-26):
at most symNameCap - 1 characters of the name are kept. -/
def truncName (s : String) : String := String.mk (s.toList.take (symNameCap - 1))

/-- One symbol-table entry (semantic.h `Symbol`); the `next` pointer of
the C struct is the list structure itself. -/
structure Symbol where
  name : String
  type : TokenType
  scope_level : Int
  line_declared : Nat
  is_initialized : Bool
  deriving DecidableEq, Repr

/-- The symbol table (semantic.h `SymbolTable`): head of a singly linked
symbol list plus the current scope level. -/
structure SymbolTable where
  head : List Symbol
  current_scope : Int
  deriving DecidableEq, Repr

/-- init_symbol_table (semantic.c lines 12-19). -/
def init_symbol_table : SymbolTable := ⟨[], 0⟩

/-- add_symbol (semantic.c lines 22-35): insert at the head of the
list, tagged with the current scope, not initialized. -/
def add_symbol (t : SymbolTable) (name : String) (ty : TokenType) (line : Nat) :
    SymbolTable :=
  ⟨⟨truncName name, ty, t.current_scope, line, false⟩ :: t.head, t.current_scope⟩

/-- lookup_symbol (semantic.c lines 38-46): first symbol with the given
name, scanning from the head (hence the most recently added one). -/
def lookup_symbol (t : SymbolTable) (name : String) : Option Symbol :=
  t.head.find? (fun s => s.name == name)

/-- lookup_symbol_current_scope (semantic.c lines 49-57): first symbol
with the given name tagged with the current scope level. -/
def lookup_symbol_current_scope (t : SymbolTable) (name : String) : Option Symbol :=
  t.head.find? (fun s => s.name == name && s.scope_level == t.current_scope)

/-- enter_scope (semantic.c lines 60-62). -/
def enter_scope (t : SymbolTable) : SymbolTable :=
  ⟨t.head, t.current_scope + 1⟩

/-- remove_symbols_in_current_scope (semantic.c lines 65-76): unlink
every symbol tagged with the current scope level. -/
def remove_symbols_in_current_scope (t : SymbolTable) : SymbolTable :=
  ⟨t.head.filter (fun s => s.scope_level != t.current_scope), t.current_scope⟩

/-- exit_scope (semantic.c lines 79-82). -/
def exit_scope (t : SymbolTable) : SymbolTable :=
  let t1 := remove_symbols_in_current_scope t
  ⟨t1.head, t1.current_scope - 1⟩

/-- The in-place `symbol->is_initialized = 1` of check_assignment
(semantic.c line 244), applied to the symbol lookup_symbol found: mark
the first list entry with the given name. -/
def markInitialized : List Symbol → String → List Symbol
  | [], _ => []
  | s :: rest, name =>
    if s.name == name then ⟨s.name, s.type, s.scope_level, s.line_declared, true⟩ :: rest
    else s :: markInitialized rest name

/-- check_expression (semantic.c lines 250-279).  Purely reads the
table; returns the validity flag and the diagnostics printed, in print
order.  Number literals are valid; identifiers are looked up across all
scopes, undeclared making the expression invalid and declared-but-
uninitialized printing a warning WITHOUT clearing validity; AST_BINOP
and the default case both recurse into the two children and AND the
results. -/
def check_expression : ASTNode → SymbolTable → Bool × List Diag
  | .null, _ => (true, [])
  | .node ty tok l r _, t =>
    match ty with
    | .AST_NUMBER => (true, [])
    | .AST_IDENTIFIER =>
      match lookup_symbol t tok.lexeme with
      | none => (false, [⟨.SEM_ERROR_UNDECLARED_VARIABLE, tok.lexeme, tok.line⟩])
      | some s =>
        if s.is_initialized then (true, [])
        else (true, [⟨.SEM_ERROR_UNINITIALIZED_VARIABLE, tok.lexeme, tok.line⟩])
    | _ =>
      let r1 := check_expression l t
      let r2 := check_expression r t
      (r1.1 && r2.1, r1.2 ++ r2.2)

/-- check_condition (semantic.c lines 294-297). -/
def check_condition (n : ASTNode) (t : SymbolTable) : Bool × List Diag :=
  check_expression n t

/-- check_declaration (semantic.c lines 217-230): a non-VarDecl node
passes; otherwise the name is looked up in the current scope only;
found means a redeclaration error, otherwise the symbol is added with
type TOKEN_INT.  Returns (validity, table after, diagnostics). -/
def check_declaration (node : ASTNode) (t : SymbolTable) :
    Bool × SymbolTable × List Diag :=
  match node with
  | .node .AST_VARDECL tok _ _ _ =>
    match lookup_symbol_current_scope t tok.lexeme with
    | some _ => (false, t, [⟨.SEM_ERROR_REDECLARED_VARIABLE, tok.lexeme, tok.line⟩])
    | none => (true, add_symbol t tok.lexeme .TOKEN_INT tok.line, [])
  | _ => (true, t, [])

/-- check_assignment (semantic.c lines 233-247): a node that is not an
assignment or lacks a child fails silently; otherwise the left child's
lexeme is looked up across all scopes; not found reports undeclared (at
the assignment node's own token line) and returns invalid immediately,
leaving the table untouched and never visiting the right-hand side;
found means the right-hand expression is checked and, only when it is
valid, the symbol is marked initialized. -/
def check_assignment (node : ASTNode) (t : SymbolTable) :
    Bool × SymbolTable × List Diag :=
  match node with
  | .node .AST_ASSIGN tok (.node _ ltok _ _ _) (.node rty rtok rl rr re) _ =>
    let name := ltok.lexeme
    match lookup_symbol t name with
    | none => (false, t, [⟨.SEM_ERROR_UNDECLARED_VARIABLE, name, tok.line⟩])
    | some _ =>
      let r := check_expression (.node rty rtok rl rr re) t
      (r.1, if r.1 then ⟨markInitialized t.head name, t.current_scope⟩ else t, r.2)
  | _ => (false, t, [])

mutual

/-- check_statement (semantic.c lines 176-214): dispatch on the node
type.  The AST_BLOCK case is check_block applied to the same node
(semantic.c line 187); because that call does not shrink the argument,
the callee's body (semantic.c lines 283-291) is inlined here, and the
lemma check_statement_block_eq below restores the original call shape.
For AST_IF the condition, the then-branch and, when present, the
else_branch slot are all checked; for AST_WHILE the condition and body;
for AST_PRINT the printed expression; anything else falls through to
check_expression on the node itself. -/
def check_statement : ASTNode → SymbolTable → Bool × SymbolTable × List Diag
  | .null, t => (true, t, [])
  | .node ty tok l r e, t =>
    match ty with
    | .AST_VARDECL => check_declaration (.node ty tok l r e) t
    | .AST_ASSIGN => check_assignment (.node ty tok l r e) t
    | .AST_BLOCK =>
      let t1 := enter_scope t
      let s1 := check_statement l t1
      let s2 := check_block r s1.2.1
      (s1.1 && s2.1, exit_scope s2.2.1, s1.2.2 ++ s2.2.2)
    | .AST_IF =>
      let c := check_condition l t
      let s1 := check_statement r t
      let s2 := check_statement e s1.2.1
      (c.1 && s1.1 && s2.1, s2.2.1, c.2 ++ s1.2.2 ++ s2.2.2)
    | .AST_WHILE =>
      let c := check_condition l t
      let s1 := check_statement r t
      (c.1 && s1.1, s1.2.1, c.2 ++ s1.2.2)
    | .AST_PRINT =>
      let r1 := check_expression l t
      (r1.1, t, r1.2)
    | _ =>
      let r1 := check_expression (.node ty tok l r e) t
      (r1.1, t, r1.2)

/-- check_block (semantic.c lines 283-291): enter a scope, check the
left child as a statement, continue through the right child as the rest
of the block, then remove the scope's symbols and leave the scope. -/
def check_block : ASTNode → SymbolTable → Bool × SymbolTable × List Diag
  | .null, t => (true, t, [])
  | .node _ _ l r _, t =>
    let t1 := enter_scope t
    let s1 := check_statement l t1
    let s2 := check_block r s1.2.1
    (s1.1 && s2.1, exit_scope s2.2.1, s1.2.2 ++ s2.2.2)

end

/-- check_program (semantic.c lines 161-173): an AST_PROGRAM node has
its left child checked as a statement and its right child checked as
the rest of the program, both results ANDed; any other node is checked
as a single statement. -/
def check_program : ASTNode → SymbolTable → Bool × SymbolTable × List Diag
  | .null, t => (true, t, [])
  | .node ty tok l r e, t =>
    if ty = .AST_PROGRAM then
      let s1 := check_statement l t
      let s2 := check_program r s1.2.1
      (s1.1 && s2.1, s2.2.1, s1.2.2 ++ s2.2.2)
    else check_statement (.node ty tok l r e) t

/-- analyze_semantics (semantic.c lines 152-158): run check_program on
a fresh table; returns the validity verdict and the diagnostics printed
(the final dump_symbol_table is debug output, not a diagnostic). -/
def analyze_semantics (ast : ASTNode) : Bool × List Diag :=
  let r := check_program ast init_symbol_table
  (r.1, r.2.2)

/-- Parse a source string and analyze the resulting tree. -/
def analyzeSource (input : String) (fuel : Nat) : Except Fatal (Bool × List Diag) :=
  (parse input fuel).map analyze_semantics


/-- Shorthand for an expected number-literal leaf in stated trees. -/
def numNode (s : String) (line : Nat) : ASTNode :=
  .node .AST_NUMBER ⟨.TOKEN_NUMBER, s, line, .ERROR_NONE⟩ .null .null .null

/-- Shorthand for an expected identifier leaf in stated trees. -/
def identNode (s : String) (line : Nat) : ASTNode :=
  .node .AST_IDENTIFIER ⟨.TOKEN_IDENTIFIER, s, line, .ERROR_NONE⟩ .null .null .null

/-- Shorthand for an expected binary-operator node in stated trees. -/
def binopNode (op : String) (line : Nat) (l r : ASTNode) : ASTNode :=
  .node .AST_BINOP ⟨.TOKEN_OPERATOR, op, line, .ERROR_NONE⟩ l r .null

/-- Shorthand for an expected variable-declaration leaf in stated trees. -/
def vardeclNode (s : String) (line : Nat) : ASTNode :=
  .node .AST_VARDECL ⟨.TOKEN_IDENTIFIER, s, line, .ERROR_NONE⟩ .null .null .null

/-- The AST_BLOCK case of check_statement is exactly check_block applied
to the same node, as in semantic.c line 187 (the call was inlined in the
definition to keep the recursion structural). -/
theorem check_statement_block_eq (tok : Token) (l r e : ASTNode) (t : SymbolTable) :
    check_statement (.node .AST_BLOCK tok l r e) t =
      check_block (.node .AST_BLOCK tok l r e) t := rfl

set_option maxHeartbeats 1600000 in
/-- Every token scan consumes at least one character. -/
theorem scanTok_consumed_pos (c : Char) (rest : List Char) :
    0 < (scanTok c rest).consumed := by
  unfold scanTok
  split
  · rename_i h
    simp only [List.takeWhile_cons, h, if_true, List.length_take, List.length_cons]
    have h99 : lexemeCap - 1 = 99 := rfl
    omega
  · split
    · rename_i h0 h
      have hc : identChar c = true := by
        rcases h with h | h
        · simp [identChar, Char.isAlphanum, h]
        · simp [identChar, h]
      simp only [List.takeWhile_cons, hc, if_true, List.length_take, List.length_cons]
      have h99 : lexemeCap - 1 = 99 := rfl
      omega
    · split
      · simp
      · split
        · split <;> simp
        · split
          · split <;> simp
          · split
            · split <;> simp
            · split
              · simp
              · split
                · simp
                · split
                  · simp
                  · split
                    · simp
                    · split <;> simp


/-- C1: the claim says Program AND Block nodes keep the statement in the
node's own left slot and the rest of the sequence in the node's own
right slot, never threading the chain through the statement nodes.
parse_program does (second conjunct), but parse_block does not: parsing
a two-statement block stores the second statement in the FIRST
STATEMENT's right slot, overwriting the assignment's expression child
(first conjunct), and leaves the block node's right child null; the
analyzer's check_block, which per its own comment expects the block
continuation in the block node's right child, consequently never visits
the second statement, so a same-scope redeclaration inside a block goes
completely undiagnosed (third conjunct). -/
theorem c1_block_chain_threaded_through_statements :
    parse "\x7b x = 1 ; int y ; \x7d" 100 =
      .ok (.node .AST_PROGRAM ⟨.TOKEN_LBRACE, "\x7b", 1, .ERROR_NONE⟩
        (.node .AST_BLOCK ⟨.TOKEN_IDENTIFIER, "x", 1, .ERROR_NONE⟩
          (.node .AST_ASSIGN ⟨.TOKEN_IDENTIFIER, "x", 1, .ERROR_NONE⟩
            (identNode "x" 1)
            (vardeclNode "y" 1)
            .null)
          .null .null)
        .null .null) ∧
    parse "int x ; int y ;" 100 =
      .ok (.node .AST_PROGRAM ⟨.TOKEN_INT, "int", 1, .ERROR_NONE⟩
        (vardeclNode "x" 1)
        (.node .AST_PROGRAM ⟨.TOKEN_INT, "int", 1, .ERROR_NONE⟩
          (vardeclNode "y" 1) .null .null)
        .null) ∧
    analyzeSource "\x7b int x ; int x ; \x7d" 100 = .ok (true, []) :=
  ⟨rfl, rfl, rfl⟩

/-- C2 counterexample: the claim says no remaining check is skipped
after a failure, so every semantic error in the program is reported in
one pass.  In `x = y ;` both x and y are undeclared uses, but
check_assignment returns on the undeclared left-hand side before
examining the right-hand side: the one diagnostic names x, and no
diagnostic for y is ever emitted. -/
theorem c2_rhs_check_skipped_after_lhs_failure :
    parse "x = y ;" 100 =
      .ok (.node .AST_PROGRAM ⟨.TOKEN_IDENTIFIER, "x", 1, .ERROR_NONE⟩
        (.node .AST_ASSIGN ⟨.TOKEN_IDENTIFIER, "x", 1, .ERROR_NONE⟩
          (identNode "x" 1) (identNode "y" 1) .null)
        .null .null) ∧
    analyzeSource "x = y ;" 100 =
      .ok (false, [⟨.SEM_ERROR_UNDECLARED_VARIABLE, "x", 1⟩]) ∧
    (⟨.SEM_ERROR_UNDECLARED_VARIABLE, "y", 1⟩ : Diag) ∉
      ([⟨.SEM_ERROR_UNDECLARED_VARIABLE, "x", 1⟩] : List Diag) :=
  ⟨rfl, rfl, by decide⟩

/-- C2 amended: the traversal is fail-soft at the statement-sequence
level: a program node's verdict is the AND of its statement's check and
the rest's check, the rest is traversed and its diagnostics are emitted
even when an earlier statement failed (first conjunct; two undeclared
assignments are both reported in the second conjunct) — but within one
assignment an undeclared left-hand side returns immediately, skipping
the right-hand expression's checks. -/
theorem c2_statement_level_accumulation :
    (∀ (tok : Token) (l r e : ASTNode) (t : SymbolTable),
      check_program (.node .AST_PROGRAM tok l r e) t =
        ((check_statement l t).1 && (check_program r (check_statement l t).2.1).1,
         (check_program r (check_statement l t).2.1).2.1,
         (check_statement l t).2.2 ++ (check_program r (check_statement l t).2.1).2.2)) ∧
    analyzeSource "x = 1 ;\ny = 2 ;" 100 =
      .ok (false, [⟨.SEM_ERROR_UNDECLARED_VARIABLE, "x", 1⟩,
                   ⟨.SEM_ERROR_UNDECLARED_VARIABLE, "y", 1⟩]) :=
  ⟨fun _ _ _ _ _ => rfl, rfl⟩

/-- C3: every AST node carries, besides left and right, the else-branch
slot (used only by If: the parser never populates it), and the
analyzer's If dispatch checks the condition, the then-branch and the
else-branch slot in sequence (first conjunct, an unfolding of
check_statement that exhibits the else-branch check); with a populated
else-branch slot holding a print of an undeclared variable the verdict
flips to false on its account (second conjunct), while the same node
with a null else-branch slot is valid (third conjunct). -/
theorem c3_if_dispatch_checks_else_branch :
    (∀ (tok : Token) (l r e : ASTNode) (t : SymbolTable),
      check_statement (.node .AST_IF tok l r e) t =
        ((check_condition l t).1 && (check_statement r t).1 &&
           (check_statement e (check_statement r t).2.1).1,
         (check_statement e (check_statement r t).2.1).2.1,
         (check_condition l t).2 ++ (check_statement r t).2.2 ++
           (check_statement e (check_statement r t).2.1).2.2)) ∧
    check_statement (.node .AST_IF ⟨.TOKEN_IF, "if", 1, .ERROR_NONE⟩
        (numNode "1" 1) .null
        (.node .AST_PRINT ⟨.TOKEN_PRINT, "print", 2, .ERROR_NONE⟩
          (identNode "z" 2) .null .null)) init_symbol_table =
      (false, init_symbol_table, [⟨.SEM_ERROR_UNDECLARED_VARIABLE, "z", 2⟩]) ∧
    check_statement (.node .AST_IF ⟨.TOKEN_IF, "if", 1, .ERROR_NONE⟩
        (numNode "1" 1) .null .null) init_symbol_table =
      (true, init_symbol_table, []) :=
  ⟨fun _ _ _ _ _ => rfl, rfl, rfl⟩

/-- C4 counterexample: the claim says re-invoking get_next_token from a
saved cursor yields the identical token including its line.  From
cursor 1 in a source whose next token sits past a newline, the first
call returns the token with line 1 and leaves the global line counter
at 2 (exactly what the parser's lookahead does, which restores only the
cursor); the re-invocation from the same cursor returns the same kind
and lexeme but line 2, a different token. -/
theorem c4_reinvocation_changes_token_line :
    (get_next_token ("x\ny".toList) 1 1).tok.type =
      (get_next_token ("x\ny".toList) 1
        (get_next_token ("x\ny".toList) 1 1).line).tok.type ∧
    (get_next_token ("x\ny".toList) 1 1).tok.lexeme =
      (get_next_token ("x\ny".toList) 1
        (get_next_token ("x\ny".toList) 1 1).line).tok.lexeme ∧
    (get_next_token ("x\ny".toList) 1 1).tok ≠
      (get_next_token ("x\ny".toList) 1
        (get_next_token ("x\ny".toList) 1 1).line).tok :=
  ⟨rfl, rfl, by decide⟩

/-- C4 amended: get_next_token is pure given (source, cursor, line
counter); given only (source, cursor), re-invocation reproduces the
token's kind, lexeme and error field and the advanced cursor, but the
token's line field copies the global line counter as of entry, which
the first invocation may have changed, so the line can differ. -/
theorem c4_kind_lexeme_cursor_line_independent
    (input : List Char) (pos l1 l2 : Nat) :
    (get_next_token input pos l1).tok.type = (get_next_token input pos l2).tok.type ∧
    (get_next_token input pos l1).tok.lexeme = (get_next_token input pos l2).tok.lexeme ∧
    (get_next_token input pos l1).tok.error = (get_next_token input pos l2).tok.error ∧
    (get_next_token input pos l1).pos = (get_next_token input pos l2).pos := by
  unfold get_next_token
  cases hs : (input.drop pos).drop (skipWsComments (input.drop pos)).1 <;>
    simp [hs]

/-- C5: expression parsing follows the documented binding powers:
`2 + 3 * 4` parses, both through the expression entry point and inside
a full statement via parse, to the tree 2 + (3 * 4), which differs from
the tree (2 + 3) * 4. -/
theorem c5_multiplication_binds_tighter_than_addition :
    parseExpressionFrom "2 + 3 * 4" 100 =
      .ok (binopNode "+" 1 (numNode "2" 1)
            (binopNode "*" 1 (numNode "3" 1) (numNode "4" 1))) ∧
    parse "x = 2 + 3 * 4 ;" 100 =
      .ok (.node .AST_PROGRAM ⟨.TOKEN_IDENTIFIER, "x", 1, .ERROR_NONE⟩
        (.node .AST_ASSIGN ⟨.TOKEN_IDENTIFIER, "x", 1, .ERROR_NONE⟩
          (identNode "x" 1)
          (binopNode "+" 1 (numNode "2" 1)
            (binopNode "*" 1 (numNode "3" 1) (numNode "4" 1)))
          .null)
        .null .null) ∧
    binopNode "+" 1 (numNode "2" 1)
        (binopNode "*" 1 (numNode "3" 1) (numNode "4" 1)) ≠
      binopNode "*" 1 (binopNode "+" 1 (numNode "2" 1) (numNode "3" 1))
        (numNode "4" 1) :=
  ⟨rfl, rfl, by decide⟩

/-- C6: each precedence level folds repeated operators left-
associatively: `8 - 3 - 2` parses to (8 - 3) - 2, which differs from
the right-leaning 8 - (3 - 2). -/
theorem c6_same_level_operators_fold_left :
    parseExpressionFrom "8 - 3 - 2" 100 =
      .ok (binopNode "-" 1 (binopNode "-" 1 (numNode "8" 1) (numNode "3" 1))
            (numNode "2" 1)) ∧
    binopNode "-" 1 (binopNode "-" 1 (numNode "8" 1) (numNode "3" 1))
        (numNode "2" 1) ≠
      binopNode "-" 1 (numNode "8" 1)
        (binopNode "-" 1 (numNode "3" 1) (numNode "2" 1)) :=
  ⟨rfl, by decide⟩


/-- C7: the declaration check looks the name up restricted to the
current scope level only: a symbol with that name at the current level
means a redeclaration diagnostic at the declaring token's line, an
invalid verdict and an unchanged table (first conjunct); with no such
symbol at the current level — even if one exists at another level — a
new symbol is inserted at the current level with initialized = false
(second conjunct); and the program `int x; int x;` is invalid with the
redeclared-variable diagnostic at the second declaration's line 2
(third conjunct). -/
theorem c7_redeclaration_in_current_scope_only :
    (∀ (tok : Token) (l r e : ASTNode) (t : SymbolTable),
      (∃ s ∈ t.head, s.name = tok.lexeme ∧ s.scope_level = t.current_scope) →
      check_declaration (.node .AST_VARDECL tok l r e) t =
        (false, t, [⟨.SEM_ERROR_REDECLARED_VARIABLE, tok.lexeme, tok.line⟩])) ∧
    (∀ (tok : Token) (l r e : ASTNode) (t : SymbolTable),
      (∀ s ∈ t.head, ¬(s.name = tok.lexeme ∧ s.scope_level = t.current_scope)) →
      check_declaration (.node .AST_VARDECL tok l r e) t =
        (true,
         ⟨⟨truncName tok.lexeme, .TOKEN_INT, t.current_scope, tok.line, false⟩ :: t.head,
          t.current_scope⟩,
         [])) ∧
    analyzeSource "int x;\nint x;" 100 =
      .ok (false, [⟨.SEM_ERROR_REDECLARED_VARIABLE, "x", 2⟩]) := by
  refine ⟨?_, ?_, rfl⟩
  · intro tok l r e t h
    obtain ⟨s, hmem, hname, hscope⟩ := h
    cases hlk : lookup_symbol_current_scope t tok.lexeme with
    | none =>
      exfalso
      rw [lookup_symbol_current_scope, List.find?_eq_none] at hlk
      have hs := hlk s hmem
      simp [hname, hscope] at hs
    | some s2 => simp [check_declaration, hlk]
  · intro tok l r e t h
    have hlk : lookup_symbol_current_scope t tok.lexeme = none := by
      rw [lookup_symbol_current_scope, List.find?_eq_none]
      intro x hx
      simp only [Bool.and_eq_true, beq_iff_eq]
      exact fun hc => h x hx hc
    simp [check_declaration, hlk, add_symbol]

/-- C7 witness: both general parts applied at concrete inputs — a
redeclaration of x at scope 0, and an insertion of y next to an
existing x. -/
theorem c7_redeclaration_in_current_scope_only_witness :
    check_declaration
        (.node .AST_VARDECL ⟨.TOKEN_IDENTIFIER, "x", 3, .ERROR_NONE⟩ .null .null .null)
        ⟨[⟨"x", .TOKEN_INT, 0, 1, false⟩], 0⟩ =
      (false, ⟨[⟨"x", .TOKEN_INT, 0, 1, false⟩], 0⟩,
       [⟨.SEM_ERROR_REDECLARED_VARIABLE, "x", 3⟩]) ∧
    check_declaration
        (.node .AST_VARDECL ⟨.TOKEN_IDENTIFIER, "y", 4, .ERROR_NONE⟩ .null .null .null)
        ⟨[⟨"x", .TOKEN_INT, 0, 1, false⟩], 0⟩ =
      (true, ⟨[⟨truncName "y", .TOKEN_INT, 0, 4, false⟩, ⟨"x", .TOKEN_INT, 0, 1, false⟩], 0⟩,
       []) :=
  ⟨c7_redeclaration_in_current_scope_only.1
      ⟨.TOKEN_IDENTIFIER, "x", 3, .ERROR_NONE⟩ .null .null .null
      ⟨[⟨"x", .TOKEN_INT, 0, 1, false⟩], 0⟩ (by decide),
   c7_redeclaration_in_current_scope_only.2.1
      ⟨.TOKEN_IDENTIFIER, "y", 4, .ERROR_NONE⟩ .null .null .null
      ⟨[⟨"x", .TOKEN_INT, 0, 1, false⟩], 0⟩ (by decide)⟩

/-- C8: in the expression check an identifier that is found but not
initialized yields the uninitialized-variable diagnostic with a STILL
VALID verdict (first conjunct), while an identifier not found at all
yields the undeclared-variable diagnostic with an invalid verdict
(second conjunct); accordingly `int x ; print x ;` keeps whole-program
validity true while reporting the warning (third conjunct). -/
theorem c8_uninitialized_warns_without_invalidating :
    (∀ (tok : Token) (l r e : ASTNode) (t : SymbolTable) (s : Symbol),
      lookup_symbol t tok.lexeme = some s → s.is_initialized = false →
      check_expression (.node .AST_IDENTIFIER tok l r e) t =
        (true, [⟨.SEM_ERROR_UNINITIALIZED_VARIABLE, tok.lexeme, tok.line⟩])) ∧
    (∀ (tok : Token) (l r e : ASTNode) (t : SymbolTable),
      lookup_symbol t tok.lexeme = none →
      check_expression (.node .AST_IDENTIFIER tok l r e) t =
        (false, [⟨.SEM_ERROR_UNDECLARED_VARIABLE, tok.lexeme, tok.line⟩])) ∧
    analyzeSource "int x ; print x ;" 100 =
      .ok (true, [⟨.SEM_ERROR_UNINITIALIZED_VARIABLE, "x", 1⟩]) := by
  refine ⟨?_, ?_, rfl⟩
  · intro tok l r e t s hlk hinit
    simp [check_expression, hlk, hinit]
  · intro tok l r e t hlk
    simp [check_expression, hlk]

/-- C8 witness: both general parts applied at concrete inputs — an
uninitialized x in a one-symbol table, and a y absent from it. -/
theorem c8_uninitialized_warns_without_invalidating_witness :
    check_expression
        (.node .AST_IDENTIFIER ⟨.TOKEN_IDENTIFIER, "x", 5, .ERROR_NONE⟩ .null .null .null)
        ⟨[⟨"x", .TOKEN_INT, 0, 1, false⟩], 0⟩ =
      (true, [⟨.SEM_ERROR_UNINITIALIZED_VARIABLE, "x", 5⟩]) ∧
    check_expression
        (.node .AST_IDENTIFIER ⟨.TOKEN_IDENTIFIER, "y", 6, .ERROR_NONE⟩ .null .null .null)
        ⟨[⟨"x", .TOKEN_INT, 0, 1, false⟩], 0⟩ =
      (false, [⟨.SEM_ERROR_UNDECLARED_VARIABLE, "y", 6⟩]) :=
  ⟨c8_uninitialized_warns_without_invalidating.1
      ⟨.TOKEN_IDENTIFIER, "x", 5, .ERROR_NONE⟩ .null .null .null
      ⟨[⟨"x", .TOKEN_INT, 0, 1, false⟩], 0⟩ ⟨"x", .TOKEN_INT, 0, 1, false⟩ rfl rfl,
   c8_uninitialized_warns_without_invalidating.2.1
      ⟨.TOKEN_IDENTIFIER, "y", 6, .ERROR_NONE⟩ .null .null .null
      ⟨[⟨"x", .TOKEN_INT, 0, 1, false⟩], 0⟩ rfl⟩

/-- C9: lexing makes progress — whenever get_next_token returns a token
that is not end-of-file, the cursor after the call is strictly greater
than the cursor before it (for every input, cursor and line-counter
state). -/
theorem c9_lexer_progress (input : List Char) (pos line : Nat)
    (h : (get_next_token input pos line).tok.type ≠ .TOKEN_EOF) :
    pos < (get_next_token input pos line).pos := by
  unfold get_next_token at h ⊢
  cases hs : (input.drop pos).drop (skipWsComments (input.drop pos)).1 with
  | nil => simp [hs] at h
  | cons c rest =>
    have hp := scanTok_consumed_pos c rest
    simp only [hs]
    omega

/-- C9 witness: progress at a concrete non-EOF call. -/
theorem c9_lexer_progress_witness :
    (get_next_token ("x".toList) 0 1).tok.type ≠ .TOKEN_EOF ∧
    0 < (get_next_token ("x".toList) 0 1).pos :=
  ⟨by decide, c9_lexer_progress ("x".toList) 0 1 (by decide)⟩

/-- C10: check_assignment is atomic on its error path — when the
left-hand identifier's name matches no symbol in the table, the result
is invalid with exactly the one undeclared-variable diagnostic (at the
assignment node's token line): the right-hand expression contributes no
diagnostics because it is never examined, and the returned table is the
input table unchanged. -/
theorem c10_undeclared_assignment_atomic
    (tok : Token) (lty : ASTNodeType) (ltok : Token) (ll lr le : ASTNode)
    (rty : ASTNodeType) (rtok : Token) (rl rr re : ASTNode) (e : ASTNode)
    (t : SymbolTable) (h : ∀ s ∈ t.head, s.name ≠ ltok.lexeme) :
    check_assignment
        (.node .AST_ASSIGN tok (.node lty ltok ll lr le) (.node rty rtok rl rr re) e) t =
      (false, t, [⟨.SEM_ERROR_UNDECLARED_VARIABLE, ltok.lexeme, tok.line⟩]) := by
  have hlk : lookup_symbol t ltok.lexeme = none := by
    rw [lookup_symbol, List.find?_eq_none]
    intro x hx
    simp only [beq_iff_eq]
    exact h x hx
  simp [check_assignment, hlk]

/-- C10 witness: assigning to an undeclared x with an (equally
undeclared) y on the right-hand side in the empty table: only the x
diagnostic appears and the table is unchanged. -/
theorem c10_undeclared_assignment_atomic_witness :
    check_assignment
        (.node .AST_ASSIGN ⟨.TOKEN_IDENTIFIER, "x", 1, .ERROR_NONE⟩
          (.node .AST_IDENTIFIER ⟨.TOKEN_IDENTIFIER, "x", 1, .ERROR_NONE⟩ .null .null .null)
          (.node .AST_IDENTIFIER ⟨.TOKEN_IDENTIFIER, "y", 1, .ERROR_NONE⟩ .null .null .null)
          .null)
        init_symbol_table =
      (false, init_symbol_table, [⟨.SEM_ERROR_UNDECLARED_VARIABLE, "x", 1⟩]) :=
  c10_undeclared_assignment_atomic
    ⟨.TOKEN_IDENTIFIER, "x", 1, .ERROR_NONE⟩
    .AST_IDENTIFIER ⟨.TOKEN_IDENTIFIER, "x", 1, .ERROR_NONE⟩ .null .null .null
    .AST_IDENTIFIER ⟨.TOKEN_IDENTIFIER, "y", 1, .ERROR_NONE⟩ .null .null .null
    .null init_symbol_table (by decide)

end CFront
